import Mathlib

/-!
# Verification of the fastapi-sia parameter model and query translator

A shallow embedding, in Lean 4, of the core of the `fastapi-sia` repository:

* `fastapi_sia/models.py` — the DALI/SIA parameter grammar: `MinMaxRange.from_string`,
  `Time.from_string`, `parse_pos` and the bound-checking constructors of the
  `Circle` / `Range` / `Polygon` shape models;
* `fastapi_sia/service.py` — the query translator `perform_sia_query`: the inner
  helpers `apply_minmax_filter`, `apply_enum_filter`, `apply_pos_filter`,
  `apply_time_filter`, the sequence of `query.filter(...)` applications and the
  `MAXREC` record cap.

Modelling conventions:

* Python `float` values are modelled exactly by `PyFloat`: a rational for finite
  values, plus distinguished `inf` / `ninf` / `nan` points (rounding of decimal
  literals to binary doubles is not modelled; no claim depends on it).
* Python strings are Lean `String`s; the relevant `str` methods (`split`,
  `split(" ")`, `strip`, `upper`, slicing by `len`) are re-implemented over the
  character list so that they compute by `decide`/`rfl`.
* Python exceptions become an explicit `PyErr` error type threaded through
  `Except`: `valueError` for plain `ValueError` raises, `validationError` for
  pydantic validator failures, `indexError` for out-of-range indexing.
* The SQLAlchemy clause objects produced by the translator become the `Clause`
  AST; `text(...)` fragments calling the q3c spatial extension become structured
  constructors carrying their interpolated parameters.  Clause semantics over a
  catalog row are given by `evalClause`, with the external geometric predicates
  abstracted as a `Geo` oracle.
-/

namespace SIA

/-! ## Python string primitives -/

/-- Python `str.split()` (no separator) over a character list: split on runs of
whitespace, dropping empty pieces.  `cur` accumulates the current token,
reversed. -/
def pySplitAux : List Char → List Char → List String
  | [], cur => if cur.isEmpty then [] else [String.mk cur.reverse]
  | c :: cs, cur =>
    if c.isWhitespace then
      if cur.isEmpty then pySplitAux cs [] else String.mk cur.reverse :: pySplitAux cs []
    else pySplitAux cs (c :: cur)

/-- Python `str.split()` with no separator. -/
def pySplit (s : String) : List String := pySplitAux s.data []

/-- Helper for `pySplitOnSpace`: `cur` is the current piece, reversed. -/
def splitSpAux : List Char → List Char → List String
  | [], cur => [String.mk cur.reverse]
  | c :: cs, cur =>
    if c = ' ' then String.mk cur.reverse :: splitSpAux cs []
    else splitSpAux cs (c :: cur)

/-- Python `str.split(" ")`: split on every single space, keeping empty pieces
(`"".split(" ") == [""]`, `"a  b".split(" ") == ["a", "", "b"]`). -/
def pySplitOnSpace (s : String) : List String := splitSpAux s.data []

/-- Python `str.strip()` with no argument: remove leading and trailing
whitespace. -/
def pyStrip (s : String) : String :=
  String.mk (((s.data.dropWhile Char.isWhitespace).reverse.dropWhile Char.isWhitespace).reverse)

/-- Python `str.upper()` (ASCII case mapping suffices for the POS keywords). -/
def pyUpper (s : String) : String := String.mk (s.data.map Char.toUpper)

/-- Python `str.lower()`. -/
def pyLower (s : String) : String := String.mk (s.data.map Char.toLower)

/-- Python `len(s)` (code points). -/
def pyLen (s : String) : Nat := s.data.length

/-- Python `s[n:]` (slicing by code points). -/
def pyDropChars (s : String) (n : Nat) : String := String.mk (s.data.drop n)

/-! ## Python float values -/

/-- A Python `float`: finite values are modelled exactly as rationals; the IEEE
special points `inf`, `-inf` and `nan` are distinguished constructors. -/
inductive PyFloat where
  | ninf : PyFloat
  | fin (q : ℚ) : PyFloat
  | inf : PyFloat
  | nan : PyFloat
deriving DecidableEq, Repr

/-- IEEE-style `<=` on Python floats: every comparison involving `nan` is
false; `-inf` is below and `inf` above every non-`nan` value. -/
def PyFloat.le : PyFloat → PyFloat → Bool
  | .nan, _ => false
  | _, .nan => false
  | .ninf, _ => true
  | _, .inf => true
  | .inf, _ => false
  | _, .ninf => false
  | .fin a, .fin b => decide (a ≤ b)

/-- Python unary minus on floats. -/
def PyFloat.neg : PyFloat → PyFloat
  | .ninf => .inf
  | .fin q => .fin (-q)
  | .inf => .ninf
  | .nan => .nan

/-- Python `+` on floats (`inf + -inf` is `nan`; `nan` propagates). -/
def PyFloat.add : PyFloat → PyFloat → PyFloat
  | .nan, _ => .nan
  | _, .nan => .nan
  | .inf, .ninf => .nan
  | .ninf, .inf => .nan
  | .inf, _ => .inf
  | _, .inf => .inf
  | .ninf, _ => .ninf
  | _, .ninf => .ninf
  | .fin a, .fin b => .fin (a + b)

/-- Python binary `-` on floats. -/
def PyFloat.sub (a b : PyFloat) : PyFloat := a.add b.neg

/-- Python `abs` on floats. -/
def PyFloat.absPf : PyFloat → PyFloat
  | .ninf => .inf
  | .fin q => .fin |q|
  | .inf => .inf
  | .nan => .nan

/-- Python `x / 2` on floats. -/
def PyFloat.half : PyFloat → PyFloat
  | .ninf => .ninf
  | .fin q => .fin (q / 2)
  | .inf => .inf
  | .nan => .nan

/-! ## Python `float(str)`

The builtin accepts optional surrounding whitespace, an optional sign, then
either a case-insensitive `inf` / `infinity` / `nan` or a decimal literal
(`digits [. digits] [exp]` or `. digits [exp]`), with single underscores
allowed between digits (PEP 515). -/

/-- Read a maximal run of decimal digits: accumulated value, number of digits
read, remaining characters. -/
def readDigits : List Char → Nat → Nat → (Nat × Nat × List Char)
  | c :: cs, acc, n =>
    if c.isDigit then readDigits cs (acc * 10 + (c.toNat - 48)) (n + 1)
    else (acc, n, c :: cs)
  | [], acc, n => (acc, n, [])

/-- Underscore placement check of PEP 515: every `_` must sit directly between
two digits.  `prev` is the previous character, if any. -/
def underscoresOk : Option Char → List Char → Bool
  | _, [] => true
  | prev, c :: cs =>
    if c = '_' then
      (match prev with | some p => p.isDigit | none => false) &&
      (match cs with | d :: _ => d.isDigit | [] => false) &&
      underscoresOk (some c) cs
    else underscoresOk (some c) cs

/-- `10 ^ n` on naturals, written so it always computes by kernel reduction. -/
def pow10 : Nat → Nat
  | 0 => 1
  | n + 1 => 10 * pow10 n

/-- Mantissa of a Python float literal (underscores already removed):
`digits [. [digits]]` or `. digits`, requiring at least one digit overall.
Returns the mantissa digits read as a natural number, the number of fractional
digits (so the value is `m / 10 ^ nf`), and the remaining characters. -/
def readMantissa (cs : List Char) : Option (Nat × Nat × List Char) :=
  let ip := readDigits cs 0 0
  match ip.2.2 with
  | '.' :: rest2 =>
    let fp := readDigits rest2 0 0
    if ip.2.1 + fp.2.1 = 0 then none
    else some (ip.1 * pow10 fp.2.1 + fp.1, fp.2.1, fp.2.2)
  | _ => if ip.2.1 = 0 then none else some (ip.1, 0, ip.2.2)

/-- Optional exponent part `('e'|'E') [sign] digits` of a float literal.
Returns the signed exponent and the remaining characters. -/
def readExponent (cs : List Char) : Option (ℤ × List Char) :=
  match cs with
  | c :: rest =>
    if c = 'e' ∨ c = 'E' then
      let sr : ℤ × List Char :=
        match rest with
        | '+' :: r => (1, r)
        | '-' :: r => (-1, r)
        | _ => (1, rest)
      let ev := readDigits sr.2 0 0
      if ev.2.1 = 0 then none else some (sr.1 * (ev.1 : ℤ), ev.2.2)
    else some (0, c :: rest)
  | [] => some (0, [])

/-- Numeric part of `float(str)` after sign removal and underscore stripping:
the whole character list must be consumed.  The exact value
`m / 10 ^ nf * 10 ^ e` is assembled with `mkRat` to stay kernel-computable. -/
def readNumeric (cs : List Char) : Option ℚ := do
  let (m, nf, rest) ← readMantissa cs
  let (e, rest2) ← readExponent rest
  if rest2.isEmpty then
    some (if 0 ≤ e then mkRat ((m * pow10 e.toNat : Nat) : Int) (pow10 nf)
          else mkRat (m : Int) (pow10 nf * pow10 (-e).toNat))
  else none

/-- Python `float(str)`: `none` models a `ValueError` raise. -/
def pyFloatOfString (s : String) : Option PyFloat :=
  let cs := (pyStrip s).data
  let sgn : Bool × List Char :=
    match cs with
    | '+' :: r => (false, r)
    | '-' :: r => (true, r)
    | _ => (false, cs)
  let low := String.mk (sgn.2.map Char.toLower)
  if low = "inf" ∨ low = "infinity" then some (if sgn.1 then .ninf else .inf)
  else if low = "nan" then some .nan
  else if underscoresOk none sgn.2 then
    match readNumeric (sgn.2.filter (· ≠ '_')) with
    | some q => some (.fin (if sgn.1 then -q else q))
    | none => none
  else none

example : pyFloatOfString "1.0" = some (.fin 1) := by decide
example : pyFloatOfString "0.5" = some (.fin (mkRat 1 2)) := by decide
example : pyFloatOfString "-2e3" = some (.fin (-2000)) := by decide
example : pyFloatOfString "59000" = some (.fin 59000) := by decide
example : pyFloatOfString "inf" = some .inf := by decide
example : pyFloatOfString "Inf" = some .inf := by decide
example : pyFloatOfString "-Infinity" = some .ninf := by decide
example : pyFloatOfString "nan" = some .nan := by decide
example : pyFloatOfString "1_0" = some (.fin 10) := by decide
example : pyFloatOfString "" = none := by decide
example : pyFloatOfString "." = none := by decide
example : pyFloatOfString "1._5" = none := by decide
example : pyFloatOfString "1e" = none := by decide
example : pyFloatOfString "E" = none := by decide
example : pyFloatOfString "CIRCLE" = none := by decide
example : pyFloatOfString "1." = some (.fin 1) := by decide
example : pyFloatOfString ".25" = some (.fin (mkRat 1 4)) := by decide

/-! ## Errors and the parameter model (`fastapi_sia/models.py`) -/

/-- Python exceptions observable from the parameter model: `valueError` for a
plain `ValueError` raise, `validationError` for a pydantic model-validator
failure (pydantic wraps the validator's `ValueError` into a
`ValidationError`), `indexError` for out-of-range indexing. -/
inductive PyErr where
  | valueError (msg : String) : PyErr
  | validationError (msg : String) : PyErr
  | indexError : PyErr
deriving DecidableEq, Repr

/-- Decidable equality for `Except` results, so that concrete runs of the
fallible parsers can be settled by `decide`. -/
instance exceptDecEq {ε α : Type} [DecidableEq ε] [DecidableEq α] :
    DecidableEq (Except ε α) := fun a b =>
  match a, b with
  | .error e, .error f =>
    if h : e = f then .isTrue (by rw [h]) else .isFalse (by intro hc; cases hc; exact h rfl)
  | .error _, .ok _ => .isFalse (by intro hc; cases hc)
  | .ok _, .error _ => .isFalse (by intro hc; cases hc)
  | .ok x, .ok y =>
    if h : x = y then .isTrue (by rw [h]) else .isFalse (by intro hc; cases hc; exact h rfl)

/-- The `FloatOrInf = Union[float, Literal["Inf", "-Inf"]]` type of
`models.py`: either a Python float or one of the two literal sentinel
strings. -/
inductive FloatOrInf where
  | num (x : PyFloat) : FloatOrInf
  | infLit : FloatOrInf
  | ninfLit : FloatOrInf
deriving DecidableEq, Repr

/-- `float(v)` applied to a `FloatOrInf` value, as the translator does:
`float("Inf")` is `inf`, `float("-Inf")` is `-inf`, floats pass through. -/
def FloatOrInf.toPyFloat : FloatOrInf → PyFloat
  | .num x => x
  | .infLit => .inf
  | .ninfLit => .ninf

/-- `MinMaxRange` of `models.py`. -/
structure MinMaxRange where
  min : FloatOrInf
  max : FloatOrInf
deriving DecidableEq, Repr

/-- `MinMaxRange._parse_token`: the literal strings `"Inf"` / `"-Inf"` are kept
as sentinels, anything else goes through `float(token)`, whose `ValueError` is
re-raised with the module's message. -/
def MinMaxRange.parseToken (token : String) : Except PyErr FloatOrInf :=
  if token = "Inf" then .ok .infLit
  else if token = "-Inf" then .ok .ninfLit
  else
    match pyFloatOfString token with
    | some x => .ok (.num x)
    | none => .error (.valueError ("Invalid float or Inf value: " ++ token))

/-- `MinMaxRange.from_string`: `s.strip().split()`, exactly two tokens
required, each parsed by `_parse_token`. -/
def MinMaxRange.from_string (s : String) : Except PyErr MinMaxRange :=
  match pySplit (pyStrip s) with
  | [t0, t1] => do
    let minVal ← MinMaxRange.parseToken t0
    let maxVal ← MinMaxRange.parseToken t1
    .ok ⟨minVal, maxVal⟩
  | _ => .error (.valueError ("Expected two values, got: " ++ s))

/-- `Polygon` of `models.py`: a flat list `lon1, lat1, lon2, lat2, ...`. -/
structure Polygon where
  coordinates : List PyFloat
deriving DecidableEq, Repr

/-- `Polygon`'s `validate_polygon` model validator: at least 3 lon/lat pairs
(6 values) and an even count. -/
def mkPolygon (coords : List PyFloat) : Except PyErr Polygon :=
  if coords.length < 6 ∨ coords.length % 2 ≠ 0 then
    .error (.validationError "POLYGON must have at least 3 lon/lat pairs (6 values total)")
  else .ok ⟨coords⟩

/-- `Range` (box) of `models.py`. -/
structure Range where
  lon1 : PyFloat
  lon2 : PyFloat
  lat1 : PyFloat
  lat2 : PyFloat
deriving DecidableEq, Repr

/-- `Range`'s `check_bounds` model validator, in the code's loop order:
`lon1`, `lon2` must satisfy `0 <= v <= 360`; `lat1`, `lat2` must satisfy
`-90 <= v <= 90`.  The chained Python comparison `a <= v <= b` is
`a <= v and v <= b` with IEEE semantics. -/
def mkRange (lon1 lon2 lat1 lat2 : PyFloat) : Except PyErr Range :=
  if ¬(PyFloat.le (.fin 0) lon1 && PyFloat.le lon1 (.fin 360)) then
    .error (.validationError "lon1 must be in [0, 360]")
  else if ¬(PyFloat.le (.fin 0) lon2 && PyFloat.le lon2 (.fin 360)) then
    .error (.validationError "lon2 must be in [0, 360]")
  else if ¬(PyFloat.le (.fin (-90)) lat1 && PyFloat.le lat1 (.fin 90)) then
    .error (.validationError "lat1 must be in [-90, 90]")
  else if ¬(PyFloat.le (.fin (-90)) lat2 && PyFloat.le lat2 (.fin 90)) then
    .error (.validationError "lat2 must be in [-90, 90]")
  else .ok ⟨lon1, lon2, lat1, lat2⟩

/-- `Circle` of `models.py`. -/
structure Circle where
  longitude : PyFloat
  latitude : PyFloat
  radius : PyFloat
deriving DecidableEq, Repr

/-- `Circle`'s `check_bounds` model validator: longitude in `[0, 360]`,
latitude in `[-90, 90]`; the radius is read but never constrained. -/
def mkCircle (longitude latitude radius : PyFloat) : Except PyErr Circle :=
  if ¬(PyFloat.le (.fin 0) longitude && PyFloat.le longitude (.fin 360)) then
    .error (.validationError "Longitude must be in [0, 360]")
  else if ¬(PyFloat.le (.fin (-90)) latitude && PyFloat.le latitude (.fin 90)) then
    .error (.validationError "Latitude must be in [-90, 90]")
  else .ok ⟨longitude, latitude, radius⟩

/-- `Time` of `models.py`: a start time and an optional end time. -/
structure Time where
  start_time : PyFloat
  end_time : Option PyFloat
deriving DecidableEq, Repr

/-- `float(token)` where a `ValueError` escapes with Python's own message. -/
def floatOrRaise (token : String) : Except PyErr PyFloat :=
  match pyFloatOfString token with
  | some x => .ok x
  | none => .error (.valueError ("could not convert string to float: " ++ token))

/-- `Time.from_string`: `s.strip().split()`; one token gives an open-ended
range, two tokens a closed one, anything else raises. -/
def Time.from_string (s : String) : Except PyErr Time :=
  match pySplit (pyStrip s) with
  | [t0] => do
    let st ← floatOrRaise t0
    .ok ⟨st, none⟩
  | [t0, t1] => do
    let st ← floatOrRaise t0
    let en ← floatOrRaise t1
    .ok ⟨st, some en⟩
  | _ => .error (.valueError ("Expected one or two values, got: " ++ s))

/-- The polarization label enumeration of `models.py`. -/
inductive PolarizationLabels where
  | I | Q | U | V | RR | LL | RL | LR | XX | YY | XY | YX | POLI | POLA
deriving DecidableEq, Repr

/-- The SIA data-product-type enumeration of `models.py`. -/
inductive DataProductType where
  | image | cube
deriving DecidableEq, Repr

/-- The tagged union `Union[Circle, Range, Polygon]` returned by
`parse_pos`. -/
inductive Shape where
  | circle (c : Circle) : Shape
  | range (r : Range) : Shape
  | polygon (p : Polygon) : Shape
deriving DecidableEq, Repr

/-- `map(float, tokens)`, fully forced: the first failing conversion raises.
(CPython's lazy `map` interleaves conversions with tuple unpacking, which can
reorder which `ValueError` fires first; every such path is a `ValueError`, and
no claim depends on the message of that corner case.) -/
def mapFloat (tokens : List String) : Except PyErr (List PyFloat) :=
  tokens.mapM floatOrRaise

/-- Tuple unpacking `a, b, c = xs`: a `ValueError` unless exactly 3 values. -/
def unpack3 (l : List PyFloat) : Except PyErr (PyFloat × PyFloat × PyFloat) :=
  match l with
  | [a, b, c] => .ok (a, b, c)
  | _ => .error (.valueError "cannot unpack: expected 3 values")

/-- Tuple unpacking `a, b, c, d = xs`: a `ValueError` unless exactly 4
values. -/
def unpack4 (l : List PyFloat) : Except PyErr (PyFloat × PyFloat × PyFloat × PyFloat) :=
  match l with
  | [a, b, c, d] => .ok (a, b, c, d)
  | _ => .error (.valueError "cannot unpack: expected 4 values")

/-- The shape-keyword dispatch of `parse_pos`, after the leading token has been
uppercased and stripped off the input: `parts` is `pos_str[len(shape):].strip()`
and each branch runs `map(float, parts.split(" "))` and the shape model's
validating constructor. -/
def dispatchShape (shape : String) (parts : String) : Except PyErr Shape :=
  if shape = "CIRCLE" then do
    let fs ← mapFloat (pySplitOnSpace parts)
    let (lon, lat, radius) ← unpack3 fs
    let c ← mkCircle lon lat radius
    .ok (.circle c)
  else if shape = "RANGE" then do
    let fs ← mapFloat (pySplitOnSpace parts)
    let (lon1, lon2, lat1, lat2) ← unpack4 fs
    let r ← mkRange lon1 lon2 lat1 lat2
    .ok (.range r)
  else if shape = "POLYGON" then do
    let coords ← mapFloat (pySplitOnSpace parts)
    let p ← mkPolygon coords
    .ok (.polygon p)
  else .error (.valueError ("Unknown POS shape: " ++ shape))

/-- `parse_pos` of `models.py`: `shape = pos_str.split()[0].upper()` (an
`IndexError` on a blank input), `parts = pos_str[len(shape):].strip()`, then
dispatch on the shape keyword. -/
def parse_pos (pos_str : String) : Except PyErr Shape :=
  match pySplit pos_str with
  | [] => .error .indexError
  | t :: _ => dispatchShape (pyUpper t) (pyStrip (pyDropChars pos_str (pyLen (pyUpper t))))

example : parse_pos "CIRCLE 10.0 20.0 1.0" =
    .ok (.circle ⟨.fin 10, .fin 20, .fin 1⟩) := by decide
example : parse_pos "circle 10.0 20.0 1.0" =
    .ok (.circle ⟨.fin 10, .fin 20, .fin 1⟩) := by decide
example : parse_pos "RANGE 0 10 0 20" =
    .ok (.range ⟨.fin 0, .fin 10, .fin 0, .fin 20⟩) := by decide
example : (parse_pos "RANGE 0 0 10 20 30").isOk = false := by decide
example : parse_pos "POLYGON 0 0 10 0 10 10" =
    .ok (.polygon ⟨[.fin 0, .fin 0, .fin 10, .fin 0, .fin 10, .fin 10]⟩) := by decide
example : (parse_pos "POLYGON 0 0 10 0 10").isOk = false := by decide
example : parse_pos "FOO 1 2" = .error (.valueError "Unknown POS shape: FOO") := by decide
example : parse_pos "" = .error .indexError := by decide


/-! ## Search parameters (`SIASearchParams` of `models.py`) -/

/-- `SIASearchParams`: every query field is an optional list of already-parsed
values; `MAXREC` is an optional non-negative integer (`Field(ge=0)`). -/
structure SIASearchParams where
  POS : Option (List Shape) := none
  BAND : Option (List MinMaxRange) := none
  TIME : Option (List Time) := none
  POL : Option (List PolarizationLabels) := none
  FOV : Option (List MinMaxRange) := none
  SPATRES : Option (List MinMaxRange) := none
  SPECRP : Option (List MinMaxRange) := none
  EXPTIME : Option (List MinMaxRange) := none
  TIMERES : Option (List MinMaxRange) := none
  ID : Option (List String) := none
  COLLECTION : Option (List String) := none
  FACILITY : Option (List String) := none
  INSTRUMENT : Option (List String) := none
  DPTYPE : Option (List DataProductType) := none
  CALIB : Option (List Nat) := none
  TARGET : Option (List String) := none
  FORMAT : Option (List String) := none
  MAXREC : Option Nat := none

/-! ## The translated predicate (`perform_sia_query` of `service.py`) -/

/-- The numeric ObsCore columns the translator compares against. -/
inductive NumCol where
  | em_min | s_fov | s_resolution | em_res_power | t_exptime | t_resolution
  | t_min | t_max
deriving DecidableEq, Repr

/-- The string-valued ObsCore columns the translator compares against. -/
inductive StrCol where
  | obs_id | obs_collection | facility_name | instrument_name | target_name
  | access_format
deriving DecidableEq, Repr

/-- The SQLAlchemy clause tree built by `perform_sia_query`.  `and_` / `or_`
become list nodes; the raw `text(...)` fragments calling the q3c spatial
extension become structured constructors carrying the parameters interpolated
into the SQL string. -/
inductive Clause where
  | ge (c : NumCol) (v : PyFloat) : Clause
  | le (c : NumCol) (v : PyFloat) : Clause
  | eqStr (c : StrCol) (v : String) : Clause
  | eqPol (v : PolarizationLabels) : Clause
  | eqDpt (v : DataProductType) : Clause
  | eqCalib (v : Nat) : Clause
  | and (cs : List Clause) : Clause
  | or (cs : List Clause) : Clause
  | q3cRadial (lon lat radius : PyFloat) : Clause
  | q3cBox (centerRa centerDec halfWidthRa halfWidthDec : PyFloat) : Clause
  | q3cPoly (pairs : List (PyFloat × PyFloat)) : Clause

/-- `apply_minmax_filter` of `service.py`: per range, `low` is `-inf` for the
`"-Inf"` sentinel and `float(r.min)` otherwise, `high` is `inf` for the `"Inf"`
sentinel and `float(r.max)` otherwise; the clause is
`and_(field >= low, field <= high)` and the ranges are OR-ed. -/
def apply_minmax_filter (field : NumCol) (ranges : List MinMaxRange) : Clause :=
  .or (ranges.map fun r =>
    let low := if r.min = .ninfLit then PyFloat.ninf else r.min.toPyFloat
    let high := if r.max = .infLit then PyFloat.inf else r.max.toPyFloat
    .and [.ge field low, .le field high])

/-- `apply_enum_filter` of `service.py`: `or_(*[field == val for val in
values])`.  The equality-clause maker is a parameter because the Lean
embedding types each column. -/
def apply_enum_filter {α : Type} (mkEq : α → Clause) (values : List α) : Clause :=
  .or (values.map mkEq)

/-- `zip(coords[::2], coords[1::2])`: consecutive (lon, lat) pairs, a trailing
odd element dropped. -/
def pairUp : List PyFloat → List (PyFloat × PyFloat)
  | a :: b :: rest => (a, b) :: pairUp rest
  | _ => []

/-- `apply_pos_filter` of `service.py`: Circle becomes a `q3c_radial_query`
text clause on (center, radius); Range becomes a `q3c_box_query` on the box
midpoint and half-widths; Polygon becomes a `q3c_poly_query` on the (lon, lat)
pairs; the shapes are OR-ed. -/
def apply_pos_filter (pos_list : List Shape) : Clause :=
  .or (pos_list.map fun pos =>
    match pos with
    | .circle c => .q3cRadial c.longitude c.latitude c.radius
    | .range r =>
      let centerRa := (r.lon1.add r.lon2).half
      let centerDec := (r.lat1.add r.lat2).half
      let widthRa := (r.lon2.sub r.lon1).absPf
      let widthDec := (r.lat2.sub r.lat1).absPf
      .q3cBox centerRa centerDec widthRa.half widthDec.half
    | .polygon p => .q3cPoly (pairUp p.coordinates))

/-- `apply_time_filter` of `service.py`: with an end time the clause is
`and_(t_max >= start, t_min <= end)`; without one it is `t_max >= start`;
the entries are OR-ed. -/
def apply_time_filter (times : List Time) : Clause :=
  .or (times.map fun t =>
    match t.end_time with
    | some e => .and [.ge .t_max t.start_time, .le .t_min e]
    | none => .ge .t_max t.start_time)

/-- The translated query: the conjunctive list of filter clauses passed to
`query.filter(...)`, plus the optional `LIMIT`. -/
structure QueryPlan where
  filters : List Clause
  limit : Option Nat

/-- One `if sia_search_params.FIELD: query = query.filter(tr(...))` step.
Python truthiness of an optional list: `None` and `[]` are both falsy, so the
filter is appended only for a present, non-empty list. -/
def addFilter {α : Type} (filters : List Clause) (field : Option (List α))
    (tr : List α → Clause) : List Clause :=
  match field with
  | some l => if l.isEmpty then filters else filters ++ [tr l]
  | none => filters

/-- The query-translation part of `perform_sia_query`: the sequence of
truthiness-guarded `query.filter(...)` calls, in source order, followed by the
`MAXREC` cap.  `if sia_search_params.MAXREC:` is Python truthiness on an
optional integer, so `MAXREC=0` (falsy) applies no `LIMIT` at all. -/
def translateQuery (p : SIASearchParams) : QueryPlan :=
  let fs := addFilter [] p.POS apply_pos_filter
  let fs := addFilter fs p.BAND (apply_minmax_filter .em_min)
  let fs := addFilter fs p.TIME apply_time_filter
  let fs := addFilter fs p.FOV (apply_minmax_filter .s_fov)
  let fs := addFilter fs p.SPATRES (apply_minmax_filter .s_resolution)
  let fs := addFilter fs p.SPECRP (apply_minmax_filter .em_res_power)
  let fs := addFilter fs p.EXPTIME (apply_minmax_filter .t_exptime)
  let fs := addFilter fs p.TIMERES (apply_minmax_filter .t_resolution)
  let fs := addFilter fs p.POL (apply_enum_filter Clause.eqPol)
  let fs := addFilter fs p.ID (apply_enum_filter (Clause.eqStr .obs_id))
  let fs := addFilter fs p.COLLECTION (apply_enum_filter (Clause.eqStr .obs_collection))
  let fs := addFilter fs p.FACILITY (apply_enum_filter (Clause.eqStr .facility_name))
  let fs := addFilter fs p.INSTRUMENT (apply_enum_filter (Clause.eqStr .instrument_name))
  let fs := addFilter fs p.DPTYPE (apply_enum_filter Clause.eqDpt)
  let fs := addFilter fs p.CALIB (apply_enum_filter Clause.eqCalib)
  let fs := addFilter fs p.TARGET (apply_enum_filter (Clause.eqStr .target_name))
  let fs := addFilter fs p.FORMAT (apply_enum_filter (Clause.eqStr .access_format))
  { filters := fs
    limit :=
      match p.MAXREC with
      | some n => if n = 0 then none else some n
      | none => none }

/-! ## Clause semantics over a catalog row -/

/-- An ObsCore catalog row, restricted to the attributes the translator can
touch.  The stored doubles are modelled as (finite) rationals: catalog
contents are ordinary numbers, and database NULL/NaN semantics are a row-store
collaborator concern outside the translated predicate's specification. -/
structure Row where
  em_min : ℚ
  s_fov : ℚ
  s_resolution : ℚ
  em_res_power : ℚ
  t_exptime : ℚ
  t_resolution : ℚ
  t_min : ℚ
  t_max : ℚ
  s_ra : ℚ
  s_dec : ℚ
  pol_states : PolarizationLabels
  obs_id : String
  obs_collection : String
  facility_name : String
  instrument_name : String
  target_name : String
  access_format : String
  dataproduct_type : DataProductType
  calib_level : Nat
deriving DecidableEq, Repr

/-- Numeric column lookup. -/
def Row.num (row : Row) : NumCol → ℚ
  | .em_min => row.em_min
  | .s_fov => row.s_fov
  | .s_resolution => row.s_resolution
  | .em_res_power => row.em_res_power
  | .t_exptime => row.t_exptime
  | .t_resolution => row.t_resolution
  | .t_min => row.t_min
  | .t_max => row.t_max

/-- String column lookup. -/
def Row.strc (row : Row) : StrCol → String
  | .obs_id => row.obs_id
  | .obs_collection => row.obs_collection
  | .facility_name => row.facility_name
  | .instrument_name => row.instrument_name
  | .target_name => row.target_name
  | .access_format => row.access_format

/-- The geometric predicates of the q3c extension, abstracted: the row store
is the collaborator that evaluates them, the translator only supplies their
parameters. -/
structure Geo where
  radial : PyFloat → PyFloat → PyFloat → ℚ → ℚ → Bool
  box : PyFloat → PyFloat → PyFloat → PyFloat → ℚ → ℚ → Bool
  poly : List (PyFloat × PyFloat) → ℚ → ℚ → Bool

/-- A trivial geometry oracle (matches nothing), for concrete runs. -/
def falseGeo : Geo :=
  { radial := fun _ _ _ _ _ => false
    box := fun _ _ _ _ _ _ => false
    poly := fun _ _ _ => false }

mutual

/-- Truth of a clause at a row: SQL comparison clauses with the translator's
parameter on one side and the column on the other, `and_`/`or_` as Boolean
conjunction/disjunction of their operand lists, q3c clauses delegated to the
`Geo` oracle on the row's position. -/
def evalClause (g : Geo) (row : Row) : Clause → Bool
  | .ge c v => PyFloat.le v (.fin (row.num c))
  | .le c v => PyFloat.le (.fin (row.num c)) v
  | .eqStr c v => row.strc c = v
  | .eqPol v => row.pol_states = v
  | .eqDpt v => row.dataproduct_type = v
  | .eqCalib v => row.calib_level = v
  | .and cs => evalAll g row cs
  | .or cs => evalAny g row cs
  | .q3cRadial lon lat r => g.radial lon lat r row.s_ra row.s_dec
  | .q3cBox cra cdec hw hh => g.box cra cdec hw hh row.s_ra row.s_dec
  | .q3cPoly pairs => g.poly pairs row.s_ra row.s_dec
termination_by structural c => c

/-- Conjunction of a clause list (`and_`, and the successive
`query.filter(...)` calls). -/
def evalAll (g : Geo) (row : Row) : List Clause → Bool
  | [] => true
  | c :: cs => evalClause g row c && evalAll g row cs
termination_by structural l => l

/-- Disjunction of a clause list (`or_`). -/
def evalAny (g : Geo) (row : Row) : List Clause → Bool
  | [] => false
  | c :: cs => evalClause g row c || evalAny g row cs
termination_by structural l => l

end

/-- Executing a translated query against a catalog: the rows satisfying every
filter, then `LIMIT n` truncation when a limit was set. -/
def runPlan (g : Geo) (plan : QueryPlan) (rows : List Row) : List Row :=
  let matched := rows.filter fun r => evalAll g r plan.filters
  match plan.limit with
  | some n => matched.take n
  | none => matched


/-! ## Spec-side predicate descriptions (for refinement comparison)

These definitions follow the wording of the specification (§4.2, §8), not the
code; the claim theorems compare the translator's clauses against them. -/

/-- Spec wording for a range-valued field: a closed-interval test
`attribute ∈ [min, max]`, a ±infinity sentinel bound degenerating to a
one-sided test. -/
def specRangeTest (x : ℚ) (r : MinMaxRange) : Bool :=
  (match r.min with
   | .ninfLit => true
   | m => PyFloat.le m.toPyFloat (.fin x)) &&
  (match r.max with
   | .infLit => true
   | m => PyFloat.le (.fin x) m.toPyFloat)

/-- Spec wording for one TIME entry: with an end time, the overlap test
`t_max >= start AND t_min <= end`; without one, `t_max >= start` only. -/
def specTimeTest (row : Row) (t : Time) : Bool :=
  match t.end_time with
  | some e => PyFloat.le t.start_time (.fin row.t_max) && PyFloat.le (.fin row.t_min) e
  | none => PyFloat.le t.start_time (.fin row.t_max)

/-- Spec wording for one field of the final conjunction: a field that supplied
at least one value contributes its per-field predicate; an absent (or empty)
field contributes nothing, i.e. is neutral for the AND. -/
def specFieldOn {α : Type} (g : Geo) (row : Row) (f : Option (List α))
    (tr : List α → Clause) : Bool :=
  match f with
  | some l => if l.isEmpty then true else evalClause g row (tr l)
  | none => true

/-- Spec wording for the final predicate: logical AND across all fields that
supplied at least one value. -/
def specConj (g : Geo) (row : Row) (p : SIASearchParams) : Bool :=
  specFieldOn g row p.POS apply_pos_filter &&
  specFieldOn g row p.BAND (apply_minmax_filter .em_min) &&
  specFieldOn g row p.TIME apply_time_filter &&
  specFieldOn g row p.FOV (apply_minmax_filter .s_fov) &&
  specFieldOn g row p.SPATRES (apply_minmax_filter .s_resolution) &&
  specFieldOn g row p.SPECRP (apply_minmax_filter .em_res_power) &&
  specFieldOn g row p.EXPTIME (apply_minmax_filter .t_exptime) &&
  specFieldOn g row p.TIMERES (apply_minmax_filter .t_resolution) &&
  specFieldOn g row p.POL (apply_enum_filter Clause.eqPol) &&
  specFieldOn g row p.ID (apply_enum_filter (Clause.eqStr .obs_id)) &&
  specFieldOn g row p.COLLECTION (apply_enum_filter (Clause.eqStr .obs_collection)) &&
  specFieldOn g row p.FACILITY (apply_enum_filter (Clause.eqStr .facility_name)) &&
  specFieldOn g row p.INSTRUMENT (apply_enum_filter (Clause.eqStr .instrument_name)) &&
  specFieldOn g row p.DPTYPE (apply_enum_filter Clause.eqDpt) &&
  specFieldOn g row p.CALIB (apply_enum_filter Clause.eqCalib) &&
  specFieldOn g row p.TARGET (apply_enum_filter (Clause.eqStr .target_name)) &&
  specFieldOn g row p.FORMAT (apply_enum_filter (Clause.eqStr .access_format))

/-! ## Helper lemmas -/

theorem evalAll_append (g : Geo) (row : Row) (a b : List Clause) :
    evalAll g row (a ++ b) = (evalAll g row a && evalAll g row b) := by
  induction a with
  | nil => simp [evalAll]
  | cons c cs ih => simp [evalAll, ih, Bool.and_assoc]

theorem evalAll_addFilter {α : Type} (g : Geo) (row : Row) (fs : List Clause)
    (f : Option (List α)) (tr : List α → Clause) :
    evalAll g row (addFilter fs f tr) = (evalAll g row fs && specFieldOn g row f tr) := by
  match f with
  | none => simp [addFilter, specFieldOn]
  | some l =>
    by_cases h : l.isEmpty <;>
      simp [addFilter, specFieldOn, h, evalAll_append, evalAll]

theorem evalAny_map {α : Type} (g : Geo) (row : Row) (l : List α) (f : α → Clause) :
    evalAny g row (l.map f) = l.any fun x => evalClause g row (f x) := by
  induction l with
  | nil => simp [evalAny]
  | cons x xs ih => simp [evalAny, ih, List.any_cons]

theorem mapFloat_ok_length (l : List String) (fs : List PyFloat)
    (h : mapFloat l = .ok fs) : fs.length = l.length := by
  induction l generalizing fs with
  | nil =>
    rw [mapFloat, List.mapM_nil] at h
    simp only [pure, Except.pure, Except.ok.injEq] at h
    simp [← h]
  | cons t ts ih =>
    simp only [mapFloat] at h ih
    rw [List.mapM_cons] at h
    cases hf : floatOrRaise t with
    | error e => rw [hf] at h; simp [Bind.bind, Except.bind] at h
    | ok x =>
      rw [hf] at h
      cases hm : ts.mapM floatOrRaise with
      | error e => rw [hm] at h; simp [Bind.bind, Except.bind] at h
      | ok xs =>
        rw [hm] at h
        simp [Bind.bind, Except.bind, pure, Except.pure] at h
        subst h
        simp [ih xs hm]

theorem mapFloat_mem_err (l : List String) (tk : String)
    (hmem : tk ∈ l) (hbad : pyFloatOfString tk = none) :
    (mapFloat l).isOk = false := by
  induction l with
  | nil => cases hmem
  | cons t ts ih =>
    simp only [mapFloat] at ih ⊢
    rw [List.mapM_cons]
    rcases List.mem_cons.mp hmem with h | h
    · subst h
      simp [floatOrRaise, hbad, Bind.bind, Except.bind, Except.isOk, Except.toBool]
    · cases hf : floatOrRaise t with
      | error e => simp [Bind.bind, Except.bind, hf, Except.isOk, Except.toBool]
      | ok x =>
        cases hm : ts.mapM floatOrRaise with
        | error e => simp [Bind.bind, Except.bind, hf, hm, Except.isOk, Except.toBool,
            pure, Except.pure]
        | ok xs =>
          have := ih h
          rw [hm] at this
          simp [Except.isOk, Except.toBool] at this

/-! ## Concrete fixtures -/

/-- An arbitrary concrete catalog row, used for concrete query runs. -/
def sampleRow : Row where
  em_min := 0
  s_fov := 0
  s_resolution := 0
  em_res_power := 0
  t_exptime := 0
  t_resolution := 0
  t_min := 0
  t_max := 0
  s_ra := 0
  s_dec := 0
  pol_states := .I
  obs_id := "obs1"
  obs_collection := "SurveyA"
  facility_name := "Fac"
  instrument_name := "Inst"
  target_name := "M31"
  access_format := "application/fits"
  dataproduct_type := .image
  calib_level := 1

/-! ## Claim theorems -/

/-- Claim C1 (code bug): the spec says a supplied `MAXREC` caps the result set
at exactly that many records, with `MAXREC=0` requesting zero records.  The
code guards the cap with Python truthiness (`if sia_search_params.MAXREC:`),
which is false for `0`, so `MAXREC=0` applies no `LIMIT` at all: a query with
`MAXREC=0` against a one-row catalog returns that row instead of zero rows.
Positive values do cap the result as specified. -/
theorem maxrec_zero_not_capped :
    (translateQuery { MAXREC := some 0 }).limit = none
    ∧ runPlan falseGeo (translateQuery { MAXREC := some 0 }) [sampleRow] = [sampleRow]
    ∧ (translateQuery { MAXREC := some 5 }).limit = some 5
    ∧ runPlan falseGeo (translateQuery { MAXREC := some 1 }) [sampleRow, sampleRow] = [sampleRow] :=
  ⟨rfl, rfl, rfl, rfl⟩

/-- Claim C2 (counterexample): the claim says an empty but non-absent value
list makes the translator fail fast with a TranslationError.  In the code the
truthiness guard `if sia_search_params.BAND:` is false for `[]`, so the field
is silently omitted exactly as if it were absent — translation succeeds, no
error of any kind is raised, and the resulting plan is identical to the
all-absent one. -/
theorem empty_band_silently_skipped :
    translateQuery { BAND := some [] } = translateQuery ({} : SIASearchParams)
    ∧ (translateQuery { BAND := some [] }).filters = []
    ∧ (translateQuery { BAND := some [] }).limit = none :=
  ⟨rfl, rfl, rfl⟩

/-- Claim C2 (amended): for every field of SearchParams, a value list that is
empty but non-absent is treated identically to an absent field: the truthiness
guard skips it, it contributes no predicate, and no error is raised. -/
theorem empty_list_fields_treated_as_absent (p : SIASearchParams) :
    translateQuery { p with POS := some [] } = translateQuery { p with POS := none }
    ∧ translateQuery { p with BAND := some [] } = translateQuery { p with BAND := none }
    ∧ translateQuery { p with TIME := some [] } = translateQuery { p with TIME := none }
    ∧ translateQuery { p with POL := some [] } = translateQuery { p with POL := none }
    ∧ translateQuery { p with FOV := some [] } = translateQuery { p with FOV := none }
    ∧ translateQuery { p with SPATRES := some [] } = translateQuery { p with SPATRES := none }
    ∧ translateQuery { p with SPECRP := some [] } = translateQuery { p with SPECRP := none }
    ∧ translateQuery { p with EXPTIME := some [] } = translateQuery { p with EXPTIME := none }
    ∧ translateQuery { p with TIMERES := some [] } = translateQuery { p with TIMERES := none }
    ∧ translateQuery { p with ID := some [] } = translateQuery { p with ID := none }
    ∧ translateQuery { p with COLLECTION := some [] } = translateQuery { p with COLLECTION := none }
    ∧ translateQuery { p with FACILITY := some [] } = translateQuery { p with FACILITY := none }
    ∧ translateQuery { p with INSTRUMENT := some [] } = translateQuery { p with INSTRUMENT := none }
    ∧ translateQuery { p with DPTYPE := some [] } = translateQuery { p with DPTYPE := none }
    ∧ translateQuery { p with CALIB := some [] } = translateQuery { p with CALIB := none }
    ∧ translateQuery { p with TARGET := some [] } = translateQuery { p with TARGET := none }
    ∧ translateQuery { p with FORMAT := some [] } = translateQuery { p with FORMAT := none } :=
  ⟨rfl, rfl, rfl, rfl, rfl, rfl, rfl, rfl, rfl, rfl, rfl, rfl, rfl, rfl, rfl, rfl, rfl⟩

/-- Claim C5: an absent field contributes no predicate at all — the translated
filter list is the AND (here: `evalAll`) of exactly the per-field predicates of
the fields that supplied at least one value (`specConj` is the spec-side
formulation), and the all-absent SearchParams translates to an empty filter
list, evaluating to an unconstrained match-all predicate. -/
theorem absent_fields_contribute_nothing (g : Geo) (row : Row) (p : SIASearchParams) :
    evalAll g row (translateQuery p).filters = specConj g row p
    ∧ (translateQuery ({} : SIASearchParams)).filters = []
    ∧ evalAll g row (translateQuery ({} : SIASearchParams)).filters = true := by
  refine ⟨?_, rfl, rfl⟩
  simp only [translateQuery, specConj, evalAll_addFilter]
  simp [evalAll, Bool.and_assoc]

/-- Claim C3: for every range-valued field, the translated predicate is the
logical OR over the supplied `MinMaxRange` list of closed-interval tests
`attribute ∈ [min, max]` in which a ±infinity bound degenerates to a one-sided
test (`specRangeTest` is the spec-side formulation); in particular the BAND
ranges `[1,2]` and `[5,"Inf"]` translate to
`(em_min ∈ [1,2]) OR (em_min >= 5)`. -/
theorem band_or_of_interval_tests (field : NumCol) (ranges : List MinMaxRange)
    (g : Geo) (row : Row) :
    evalClause g row (apply_minmax_filter field ranges)
      = (ranges.any fun r => specRangeTest (row.num field) r)
    ∧ evalClause g row (apply_minmax_filter .em_min
        [{ min := .num (.fin 1), max := .num (.fin 2) },
         { min := .num (.fin 5), max := .infLit }])
      = ((PyFloat.le (.fin 1) (.fin row.em_min) && PyFloat.le (.fin row.em_min) (.fin 2))
          || PyFloat.le (.fin 5) (.fin row.em_min)) := by
  constructor
  · simp only [apply_minmax_filter, evalClause, evalAny_map]
    induction ranges with
    | nil => rfl
    | cons r rs ih =>
      rw [List.any_cons, List.any_cons, ih]
      congr 1
      obtain ⟨mn, mx⟩ := r
      cases mn <;> cases mx <;>
        simp [evalClause, evalAll, specRangeTest, FloatOrInf.toPyFloat, PyFloat.le,
          Bool.and_true]
  · simp [apply_minmax_filter, evalClause, evalAll, evalAny, PyFloat.le, FloatOrInf.toPyFloat,
      Row.num, Bool.and_true, Bool.or_false]

/-- Claim C4: every TIME entry with an end time translates to the overlap test
`t_max >= start AND t_min <= end`, every entry without one to `t_max >= start`
only, and multiple entries combine with OR (`specTimeTest` is the spec-side
formulation); in particular `Time.parse("59000")` yields an open-ended range
whose translated predicate is `t_max >= 59000` only, and
`Time.parse("59000 59010")` a closed range translating to the overlap test. -/
theorem time_filter_overlap_semantics (times : List Time) (g : Geo) (row : Row) :
    evalClause g row (apply_time_filter times) = times.any (specTimeTest row)
    ∧ Time.from_string "59000" = .ok { start_time := .fin 59000, end_time := none }
    ∧ evalClause g row (apply_time_filter [{ start_time := .fin 59000, end_time := none }])
        = PyFloat.le (.fin 59000) (.fin row.t_max)
    ∧ Time.from_string "59000 59010"
        = .ok { start_time := .fin 59000, end_time := some (.fin 59010) }
    ∧ evalClause g row
          (apply_time_filter [{ start_time := .fin 59000, end_time := some (.fin 59010) }])
        = (PyFloat.le (.fin 59000) (.fin row.t_max)
            && PyFloat.le (.fin row.t_min) (.fin 59010)) := by
  refine ⟨?_, by decide, ?_, by decide, ?_⟩
  · simp only [apply_time_filter, evalClause, evalAny_map]
    induction times with
    | nil => rfl
    | cons t ts ih =>
      rw [List.any_cons, List.any_cons, ih]
      congr 1
      obtain ⟨st, en⟩ := t
      cases en <;> simp [evalClause, evalAll, specTimeTest, Row.num, Bool.and_true]
  · simp [apply_time_filter, evalClause, evalAll, evalAny, specTimeTest, Row.num,
      Bool.and_true, Bool.or_false]
  · simp [apply_time_filter, evalClause, evalAll, evalAny, specTimeTest, Row.num,
      Bool.and_true, Bool.or_false]

/-- Claim C6 (counterexample): the claim says a token that is neither the
literal `"Inf"`/`"-Inf"` nor a finite float always causes a ParseError.  But
the code delegates to Python's `float(token)`, which also accepts the
case-insensitive spellings `inf` / `infinity` / `nan`: `"inf"` is not the
literal sentinel and is not finite, yet `MinMaxRange.from_string "inf 2.0"`
succeeds with a non-finite minimum (and `"nan 2.0"` likewise). -/
theorem minmax_accepts_nonfinite_token :
    MinMaxRange.from_string "inf 2.0" = .ok { min := .num .inf, max := .num (.fin 2) }
    ∧ MinMaxRange.from_string "nan 2.0" = .ok { min := .num .nan, max := .num (.fin 2) } := by
  constructor <;> decide

/-- Claim C6 (amended): `MinMaxRange.parse` splits its input on whitespace and
fails with ParseError unless exactly 2 tokens result; each token either is the
literal `"Inf"`/`"-Inf"` (mapping to the sentinel) or must parse as a Python
float — which besides finite decimal literals also accepts the
case-insensitive `inf`/`infinity`/`nan` spellings denoting non-finite values —
and a token `float()` rejects causes ParseError.  In particular
`parse("1.0")` and `parse("1.0 2.0 3.0")` both fail. -/
theorem minmax_parse_arity_and_tokens (s tok : String) (x : PyFloat) :
    ((pySplit (pyStrip s)).length ≠ 2 →
      MinMaxRange.from_string s
        = .error (.valueError ("Expected two values, got: " ++ s)))
    ∧ MinMaxRange.parseToken "Inf" = .ok .infLit
    ∧ MinMaxRange.parseToken "-Inf" = .ok .ninfLit
    ∧ (tok ≠ "Inf" → tok ≠ "-Inf" → pyFloatOfString tok = none →
        MinMaxRange.parseToken tok
          = .error (.valueError ("Invalid float or Inf value: " ++ tok)))
    ∧ (tok ≠ "Inf" → tok ≠ "-Inf" → pyFloatOfString tok = some x →
        MinMaxRange.parseToken tok = .ok (.num x))
    ∧ (MinMaxRange.from_string "1.0").isOk = false
    ∧ (MinMaxRange.from_string "1.0 2.0 3.0").isOk = false
    ∧ MinMaxRange.from_string "1.0 2.0" = .ok { min := .num (.fin 1), max := .num (.fin 2) } := by
  refine ⟨?_, by decide, by decide, ?_, ?_, by decide, by decide, by decide⟩
  · intro hlen
    rw [MinMaxRange.from_string]
    split
    · rename_i t0 t1 heq
      rw [heq] at hlen
      exact absurd rfl hlen
    · rfl
  · intro h1 h2 h3
    rw [MinMaxRange.parseToken]
    rw [if_neg h1, if_neg h2, h3]
  · intro h1 h2 h3
    rw [MinMaxRange.parseToken]
    rw [if_neg h1, if_neg h2, h3]

/-- Witness for the amended C6: the arity conjunct applied at the concrete
input `"1.0"` (one token), which fails with the code's wrong-arity message. -/
theorem minmax_parse_arity_and_tokens_witness :
    MinMaxRange.from_string "1.0" = .error (.valueError "Expected two values, got: 1.0") :=
  (minmax_parse_arity_and_tokens "1.0" "" PyFloat.nan).1 (by decide)

theorem unpack3_err (l : List PyFloat) (h : l.length ≠ 3) :
    unpack3 l = .error (.valueError "cannot unpack: expected 3 values") := by
  rcases l with _ | ⟨a, _ | ⟨b, _ | ⟨c, _ | ⟨d, rest⟩⟩⟩⟩ <;> first | rfl | exact absurd rfl h

theorem unpack4_err (l : List PyFloat) (h : l.length ≠ 4) :
    unpack4 l = .error (.valueError "cannot unpack: expected 4 values") := by
  rcases l with _ | ⟨a, _ | ⟨b, _ | ⟨c, _ | ⟨d, _ | ⟨e, rest⟩⟩⟩⟩⟩ <;>
    first | rfl | exact absurd rfl h

/-- Claim C7: `parse_pos` selects the shape variant by the first
whitespace-delimited token, uppercased; the CIRCLE branch fails unless exactly
3 tokens remain, RANGE unless exactly 4, POLYGON unless the numeric tokens
have even count ≥ 6; an unrecognized leading keyword raises a ParseError
naming the unknown shape, and a malformed numeric token raises a ParseError in
every branch.  In particular `"RANGE 0 0 10 20 30"` fails (5 tokens), while
well-formed CIRCLE strings (either case) parse. -/
theorem parse_pos_grammar (s t shape parts : String) (rest : List String)
    (coords : List PyFloat) :
    (pySplit s = t :: rest →
      parse_pos s
        = dispatchShape (pyUpper t) (pyStrip (pyDropChars s (pyLen (pyUpper t)))))
    ∧ (shape ≠ "CIRCLE" → shape ≠ "RANGE" → shape ≠ "POLYGON" →
        dispatchShape shape parts = .error (.valueError ("Unknown POS shape: " ++ shape)))
    ∧ ((pySplitOnSpace parts).length ≠ 3 → (dispatchShape "CIRCLE" parts).isOk = false)
    ∧ ((pySplitOnSpace parts).length ≠ 4 → (dispatchShape "RANGE" parts).isOk = false)
    ∧ (mapFloat (pySplitOnSpace parts) = .ok coords →
        coords.length < 6 ∨ coords.length % 2 ≠ 0 →
        (dispatchShape "POLYGON" parts).isOk = false)
    ∧ ((∃ tk ∈ pySplitOnSpace parts, pyFloatOfString tk = none) →
        (dispatchShape "CIRCLE" parts).isOk = false
        ∧ (dispatchShape "RANGE" parts).isOk = false
        ∧ (dispatchShape "POLYGON" parts).isOk = false)
    ∧ (parse_pos "RANGE 0 0 10 20 30").isOk = false
    ∧ parse_pos "circle 10.0 20.0 0.5"
        = .ok (.circle { longitude := .fin 10, latitude := .fin 20, radius := .fin (mkRat 1 2) })
    ∧ parse_pos "CIRCLE 10.0 20.0 0.5"
        = .ok (.circle { longitude := .fin 10, latitude := .fin 20, radius := .fin (mkRat 1 2) })
    ∧ parse_pos "FOO 1 2" = .error (.valueError "Unknown POS shape: FOO") := by
  refine ⟨?_, ?_, ?_, ?_, ?_, ?_, by decide, by decide, by decide, by decide⟩
  · intro h
    rw [parse_pos, h]
  · intro h1 h2 h3
    rw [dispatchShape, if_neg h1, if_neg h2, if_neg h3]
  · intro hlen
    rw [dispatchShape, if_pos rfl]
    cases hmf : mapFloat (pySplitOnSpace parts) with
    | error e => simp [hmf, Bind.bind, Except.bind, Except.isOk, Except.toBool]
    | ok fs =>
      have hl : fs.length ≠ 3 := by rw [mapFloat_ok_length _ _ hmf]; exact hlen
      simp [hmf, Bind.bind, Except.bind, unpack3_err fs hl, Except.isOk, Except.toBool]
  · intro hlen
    rw [dispatchShape, if_neg (by decide), if_pos rfl]
    cases hmf : mapFloat (pySplitOnSpace parts) with
    | error e => simp [hmf, Bind.bind, Except.bind, Except.isOk, Except.toBool]
    | ok fs =>
      have hl : fs.length ≠ 4 := by rw [mapFloat_ok_length _ _ hmf]; exact hlen
      simp [hmf, Bind.bind, Except.bind, unpack4_err fs hl, Except.isOk, Except.toBool]
  · intro hmf hbad
    rw [dispatchShape, if_neg (by decide), if_neg (by decide), if_pos rfl]
    have hpoly : mkPolygon coords
        = .error (.validationError "POLYGON must have at least 3 lon/lat pairs (6 values total)") := by
      rw [mkPolygon, if_pos hbad]
    simp [hmf, Bind.bind, Except.bind, hpoly, Except.isOk, Except.toBool]
  · rintro ⟨tk, hmem, hbad⟩
    have h := mapFloat_mem_err (pySplitOnSpace parts) tk hmem hbad
    cases hmf : mapFloat (pySplitOnSpace parts) with
    | ok fs => rw [hmf] at h; simp [Except.isOk, Except.toBool] at h
    | error e =>
      refine ⟨?_, ?_, ?_⟩
      · rw [dispatchShape, if_pos rfl]
        simp [hmf, Bind.bind, Except.bind, Except.isOk, Except.toBool]
      · rw [dispatchShape, if_neg (by decide), if_pos rfl]
        simp [hmf, Bind.bind, Except.bind, Except.isOk, Except.toBool]
      · rw [dispatchShape, if_neg (by decide), if_neg (by decide), if_pos rfl]
        simp [hmf, Bind.bind, Except.bind, Except.isOk, Except.toBool]

/-- Witness for C7: the RANGE-arity conjunct applied at the concrete remainder
`"0 0 10 20 30"` (5 tokens, not 4). -/
theorem parse_pos_grammar_witness :
    (dispatchShape "RANGE" "0 0 10 20 30").isOk = false :=
  (parse_pos_grammar "" "" "" "0 0 10 20 30" [] []).2.2.2.1 (by decide)

/-- Claim C8: every `Circle` / `Range` the validating constructors accept
satisfies longitude ∈ [0, 360] and latitude ∈ [-90, 90]; construction with
longitude 400 or latitude -100 fails with a ValidationError; and the POS
string path goes through exactly the same constructors, so the same failures
occur whether the shape is built from a string or directly from field
values. -/
theorem shape_bounds_validated (lon lat rad lon1 lon2 lat1 lat2 a b c3 d : PyFloat)
    (c0 : Circle) (r0 : Range) (parts : String) :
    (mkCircle lon lat rad = .ok c0 →
      (PyFloat.le (.fin 0) lon = true ∧ PyFloat.le lon (.fin 360) = true
        ∧ PyFloat.le (.fin (-90)) lat = true ∧ PyFloat.le lat (.fin 90) = true)
      ∧ c0 = { longitude := lon, latitude := lat, radius := rad })
    ∧ (mkRange lon1 lon2 lat1 lat2 = .ok r0 →
      (PyFloat.le (.fin 0) lon1 = true ∧ PyFloat.le lon1 (.fin 360) = true
        ∧ PyFloat.le (.fin 0) lon2 = true ∧ PyFloat.le lon2 (.fin 360) = true
        ∧ PyFloat.le (.fin (-90)) lat1 = true ∧ PyFloat.le lat1 (.fin 90) = true
        ∧ PyFloat.le (.fin (-90)) lat2 = true ∧ PyFloat.le lat2 (.fin 90) = true)
      ∧ r0 = { lon1 := lon1, lon2 := lon2, lat1 := lat1, lat2 := lat2 })
    ∧ (mapFloat (pySplitOnSpace parts) = .ok [a, b, c3] →
        dispatchShape "CIRCLE" parts = (mkCircle a b c3).map Shape.circle)
    ∧ (mapFloat (pySplitOnSpace parts) = .ok [a, b, c3, d] →
        dispatchShape "RANGE" parts = (mkRange a b c3 d).map Shape.range)
    ∧ mkCircle (.fin 400) (.fin 0) (.fin 1)
        = .error (.validationError "Longitude must be in [0, 360]")
    ∧ mkCircle (.fin 10) (.fin (-100)) (.fin 1)
        = .error (.validationError "Latitude must be in [-90, 90]")
    ∧ mkRange (.fin 400) (.fin 0) (.fin 0) (.fin 0)
        = .error (.validationError "lon1 must be in [0, 360]")
    ∧ mkRange (.fin 0) (.fin 0) (.fin (-100)) (.fin 0)
        = .error (.validationError "lat1 must be in [-90, 90]")
    ∧ parse_pos "CIRCLE 400 0 1"
        = .error (.validationError "Longitude must be in [0, 360]")
    ∧ parse_pos "CIRCLE 10 -100 1"
        = .error (.validationError "Latitude must be in [-90, 90]")
    ∧ parse_pos "RANGE 400 0 0 0"
        = .error (.validationError "lon1 must be in [0, 360]")
    ∧ parse_pos "RANGE 0 0 -100 0"
        = .error (.validationError "lat1 must be in [-90, 90]") := by
  refine ⟨?_, ?_, ?_, ?_, by decide, by decide, by decide, by decide,
    by decide, by decide, by decide, by decide⟩
  · intro h
    rw [mkCircle] at h
    split_ifs at h with h1 h2
    all_goals first
      | exact Except.noConfusion h
      | (simp only [Except.ok.injEq] at h
         refine ⟨?_, h.symm⟩
         simp at h1 h2
         tauto)
  · intro h
    rw [mkRange] at h
    split_ifs at h with h1 h2 h3 h4
    all_goals first
      | exact Except.noConfusion h
      | (simp only [Except.ok.injEq] at h
         refine ⟨?_, h.symm⟩
         simp at h1 h2 h3 h4
         tauto)
  · intro h
    rw [dispatchShape, if_pos rfl]
    simp only [h, Bind.bind, Except.bind, unpack3]
    cases hmk : mkCircle a b c3 <;> simp [Except.map]
  · intro h
    rw [dispatchShape, if_neg (by decide), if_pos rfl]
    simp only [h, Bind.bind, Except.bind, unpack4]
    cases hmk : mkRange a b c3 d <;> simp [Except.map]

/-- Witness for C8: the Circle-inversion conjunct applied at a concrete
accepted circle (longitude 10, latitude 20, radius 1). -/
theorem shape_bounds_validated_witness :
    (PyFloat.le (.fin 0) (.fin 10) = true ∧ PyFloat.le (.fin 10) (.fin 360) = true
      ∧ PyFloat.le (.fin (-90)) (.fin 20) = true ∧ PyFloat.le (.fin 20) (.fin 90) = true)
    ∧ ({ longitude := .fin 10, latitude := .fin 20, radius := .fin 1 } : Circle)
        = { longitude := .fin 10, latitude := .fin 20, radius := .fin 1 } :=
  (shape_bounds_validated (.fin 10) (.fin 20) (.fin 1) .nan .nan .nan .nan .nan .nan .nan .nan
    { longitude := .fin 10, latitude := .fin 20, radius := .fin 1 }
    { lon1 := .nan, lon2 := .nan, lat1 := .nan, lat2 := .nan } "").1 (by decide)

theorem pySplitAux_all_ws (cs : List Char) (h : ∀ c ∈ cs, c.isWhitespace) :
    pySplitAux cs [] = [] := by
  induction cs with
  | nil => rfl
  | cons c cs ih =>
    have hc : c.isWhitespace = true := h c (List.mem_cons_self c cs)
    simp only [pySplitAux, hc, if_true, List.isEmpty]
    exact ih fun x hx => h x (List.mem_cons_of_mem c hx)

/-- Claim C9: on the empty string and on any whitespace-only input, `split()`
yields no tokens and `pos_str.split()[0]` raises an `IndexError` — a distinct
exception from the `ValueError`/`ValidationError` grammar failures, so such
input is not reported as a POS parse failure. -/
theorem blank_pos_index_error (s : String) :
    ((∀ c ∈ s.data, c.isWhitespace) → parse_pos s = .error .indexError)
    ∧ parse_pos "" = .error .indexError
    ∧ parse_pos "   " = .error .indexError
    ∧ (∀ msg, PyErr.indexError ≠ PyErr.valueError msg)
    ∧ (∀ msg, PyErr.indexError ≠ PyErr.validationError msg) := by
  refine ⟨?_, by decide, by decide, ?_, ?_⟩
  · intro h
    have h0 : pySplit s = [] := pySplitAux_all_ws s.data h
    rw [parse_pos, h0]
  · intro msg h
    exact PyErr.noConfusion h
  · intro msg h
    exact PyErr.noConfusion h

/-- Witness for C9: the whitespace-only conjunct applied at a concrete
tab-and-space input. -/
theorem blank_pos_index_error_witness : parse_pos "\t " = .error .indexError :=
  (blank_pos_index_error "\t ").1 (by decide)

/-- Claim C10: `Circle` construction places no constraint on the radius — for
any radius value (negative, infinite, or nan alike), construction with
in-bounds longitude and latitude succeeds, and the unvalidated radius is
passed straight through into the `q3c_radial_query` containment clause built
by `apply_pos_filter`. -/
theorem circle_radius_unconstrained (lon lat : ℚ) (rad : PyFloat)
    (h1 : 0 ≤ lon) (h2 : lon ≤ 360) (h3 : (-90 : ℚ) ≤ lat) (h4 : lat ≤ 90) :
    mkCircle (.fin lon) (.fin lat) rad
      = .ok { longitude := .fin lon, latitude := .fin lat, radius := rad }
    ∧ apply_pos_filter [.circle { longitude := .fin lon, latitude := .fin lat, radius := rad }]
      = .or [.q3cRadial (.fin lon) (.fin lat) rad] := by
  refine ⟨?_, rfl⟩
  rw [mkCircle, if_neg, if_neg]
  · simp [PyFloat.le, h3, h4]
  · simp [PyFloat.le, h1, h2]

/-- Witness for C10: a circle with a negative radius (-5) is accepted and its
radius lands in the radial-containment clause unchanged. -/
theorem circle_radius_unconstrained_witness :
    mkCircle (.fin 10) (.fin 20) (.fin (-5))
      = .ok { longitude := .fin 10, latitude := .fin 20, radius := .fin (-5) }
    ∧ apply_pos_filter
        [.circle { longitude := .fin 10, latitude := .fin 20, radius := .fin (-5) }]
      = .or [.q3cRadial (.fin 10) (.fin 20) (.fin (-5))] :=
  circle_radius_unconstrained 10 20 (.fin (-5))
    (by norm_num) (by norm_num) (by norm_num) (by norm_num)

end SIA
